import Mathlib

/-!
Verification development for the pandemic-nerd-hurd deck model.

The Go sources cities.go and game_state.go are embedded shallowly:
Go structs become Lean structures, pointer-based in-place mutation becomes
explicit state passing (each mutating method returns the updated value,
paired with an optional error string mirroring the Go error returns), Go
ints become Int where a negative value is representable and Nat where the
value is a count, and float64 probability arithmetic is modelled exactly
over the rationals. The infection-deck source file is absent from the
repository snapshot, so its operations are modelled from the specification
text; each such definition carries a doc comment saying so.
-/

namespace Pandemic

abbrev CityName := String

/-- Modelled from the spec: the disease category is an opaque tag drawn from
a small fixed enumeration; its defining source file is not in the snapshot,
so it is embedded as a plain string tag. -/
abbrev DiseaseType := String

/-- Embeds the Go struct City from cities.go: name, disease tag, panic
level, neighbor names, infection count (a Go int, hence Int) and the
quarantine flag. -/
structure City where
  Name : CityName
  Disease : DiseaseType
  PanicLevel : Int
  Neighbors : List String
  NumInfections : Int
  Quarantined : Bool
deriving DecidableEq

/-- The Go zero value of the City struct, as produced by the literal
City{} in cities.go and game_state.go. -/
def emptyCity : City :=
  { Name := "", Disease := "", PanicLevel := 0, Neighbors := []
    NumInfections := 0, Quarantined := false }

/-- Embeds the Go method City.Infect: at infection count three it reports
an overflow (returning true) and leaves the count unchanged; otherwise it
increments the count and reports false. The returned pair is the updated
city and the Go boolean result. -/
def City.Infect (c : City) : City × Bool :=
  if c.NumInfections = 3 then (c, true)
  else ({ c with NumInfections := c.NumInfections + 1 }, false)

/-- Embeds the Go method City.Epidemic: sets the infection count to 3. -/
def City.Epidemic (c : City) : City :=
  { c with NumInfections := 3 }

/-- Embeds the Go method City.Quarantine: sets the quarantine flag. -/
def City.Quarantine (c : City) : City :=
  { c with Quarantined := true }

/-- Embeds the Go method City.RemoveQuarantine: clears the quarantine
flag. -/
def City.RemoveQuarantine (c : City) : City :=
  { c with Quarantined := false }

/-- Embeds the Go struct CityCard from cities.go. -/
structure CityCard where
  City : City
  IsEpidemic : Bool
deriving DecidableEq

/-- Embeds the Go struct CityDeck from cities.go: the drawn list and the
full card set. -/
structure CityDeck where
  Drawn : List CityCard
  All : List CityCard
deriving DecidableEq

/-- Embeds the Go struct Cities, which wraps the list of city records. -/
structure Cities where
  Cities : List City
deriving DecidableEq

/-- Embeds the Go method Cities.GetCity: returns the first city record
whose name matches, or an error when none does. Here just the lookup;
call sites that inspect the Go error test the none case. -/
def Cities.GetCity (c : Pandemic.Cities) (cn : CityName) : Option City :=
  c.Cities.find? (fun x => x.Name == cn)

/-- Embeds the Go method Cities.CityCards: one non-epidemic card per city
record in catalog order, followed by epidemicCount epidemic cards whose
city is the zero value. -/
def Cities.CityCards (c : Pandemic.Cities) (epidemicCount : Nat) : List CityCard :=
  c.Cities.map (fun city => ⟨city, false⟩) ++
    List.replicate epidemicCount ⟨emptyCity, true⟩

/-- Embeds the Go method Cities.CityNames: the names in catalog order. -/
def Cities.CityNames (c : Pandemic.Cities) : List CityName :=
  c.Cities.map City.Name

/-- Embeds the Go method CityDeck.Total: size of the full card set. -/
def CityDeck.Total (c : CityDeck) : Nat :=
  c.All.length

/-- Embeds the Go method CityDeck.NumEpidemics: how many cards of the full
set are epidemic cards. -/
def CityDeck.NumEpidemics (c : CityDeck) : Nat :=
  (c.All.filter (fun card => card.IsEpidemic)).length

/-- Embeds the Go method CityDeck.EpidemicsDrawn: how many drawn cards are
epidemic cards. -/
def CityDeck.EpidemicsDrawn (c : CityDeck) : Nat :=
  (c.Drawn.filter (fun card => card.IsEpidemic)).length

/-- Embeds the Go method CityDeck.cardsPerEpidemic, the integer division
of the deck size by the number of epidemic cards. The Go division panics
when the deck holds no epidemic card; see cardsPerEpidemicChecked for the
guarded variant used to state that fact. -/
def CityDeck.cardsPerEpidemic (c : CityDeck) : Nat :=
  c.Total / c.NumEpidemics

/-- The Go division in cardsPerEpidemic made explicit: none models the Go
runtime panic on division by zero, some the computed quotient. -/
def CityDeck.cardsPerEpidemicChecked (c : CityDeck) : Option Nat :=
  if c.NumEpidemics = 0 then none else some (c.Total / c.NumEpidemics)

/-- Embeds the Go method CityDeck.Draw: an error (and unchanged deck) when
the name is already among the drawn cards, else the first matching card of
the full set is appended to the drawn list, else an error. -/
def CityDeck.Draw (c : CityDeck) (cn : CityName) : CityDeck × Option String :=
  if c.Drawn.any (fun card => card.City.Name == cn) then
    (c, some (cn ++ " has already been drawn from the city deck"))
  else
    match c.All.find? (fun card => card.City.Name == cn) with
    | some card => ({ c with Drawn := c.Drawn ++ [card] }, none)
    | none => (c, some ("No city called " ++ cn ++ " in the city deck"))

/-- Embeds the Go method CityDeck.DrawEpidemic: an error when every
epidemic card has already been drawn, otherwise a fresh epidemic card is
appended to the drawn list. -/
def CityDeck.DrawEpidemic (c : CityDeck) : CityDeck × Option String :=
  if c.NumEpidemics ≤ c.EpidemicsDrawn then
    (c, some "Already drawn all epidemics this game, there should not be any more")
  else
    ({ c with Drawn := c.Drawn ++ [⟨emptyCity, true⟩] }, none)

/-- Embeds the Go method CityDeck.probabilityOfEpidemic over the
rationals. The Go code computes the phase as the floor of a float64
quotient of two small ints, which coincides with natural division; the
division by the remaining phase size is exact rational division here. -/
def CityDeck.probabilityOfEpidemic (c : CityDeck) : ℚ :=
  let cpe := c.cardsPerEpidemic
  let currentPhase := c.Drawn.length / cpe
  if currentPhase = c.EpidemicsDrawn then
    2 / ((cpe : ℚ) - ((c.Drawn.length % cpe : Nat) : ℚ))
  else 0

/-- The probability computation with the Go division-by-zero panic made
explicit, mirroring probabilityOfEpidemic but returning none whenever the
deck holds no epidemic card. -/
def CityDeck.probabilityOfEpidemicChecked (c : CityDeck) : Option ℚ :=
  match c.cardsPerEpidemicChecked with
  | none => none
  | some cpe =>
    some (if c.Drawn.length / cpe = c.EpidemicsDrawn then
            2 / ((cpe : ℚ) - ((c.Drawn.length % cpe : Nat) : ℚ))
          else 0)

/-- Modelled from the spec: a striation is an unordered set of location
names (order within a striation is irrelevant since it represents a
shuffled group). -/
abbrev Striation := Finset CityName

/-- Modelled from the spec: the striated infection deck is an ordered
sequence of striations, index 0 closest to being drawn next, plus a
drawn pile held most-recent-first as a stack. The defining source file is
not in the repository snapshot; only its callers are. -/
structure InfectionDeck where
  Striations : List Striation
  Drawn : List CityName
deriving DecidableEq

/-- Modelled from the spec: at game start the deck is a single striation
containing the whole location catalog, with an empty drawn pile. -/
def NewInfectionDeck (names : List CityName) : InfectionDeck :=
  { Striations := [names.toFinset], Drawn := [] }

/-- Modelled from the spec: a normal draw fails with DuplicateDraw when
the name is already in the drawn pile, removes the name from the striation
containing it and pushes it onto the drawn pile when some striation holds
it, and fails with NotFound when it is absent from every striation. -/
def InfectionDeck.Draw (d : InfectionDeck) (cn : CityName) :
    InfectionDeck × Option String :=
  if cn ∈ d.Drawn then
    (d, some (cn ++ " has already been drawn from the infection deck"))
  else if d.Striations.any (fun s => decide (cn ∈ s)) then
    ({ Striations := d.Striations.map (fun s => s.erase cn)
       Drawn := cn :: d.Drawn }, none)
  else
    (d, some ("No city called " ++ cn ++ " in the infection deck"))

/-- Modelled from the spec: a shock bottom-pull fails with NotFound when
the name is not present in the drawn pile and otherwise pulls exactly the
named entry out of the drawn pile; the pulled entry is re-drawn on top of
the pile, so that the subsequent restack covers the entire former drawn
pile including it. -/
def InfectionDeck.PullFromBottom (d : InfectionDeck) (cn : CityName) :
    InfectionDeck × Option String :=
  if cn ∈ d.Drawn then
    ({ d with Drawn := cn :: d.Drawn.erase cn }, none)
  else
    (d, some (cn ++ " is not in the drawn pile of the infection deck"))

/-- Modelled from the spec: the entire current drawn pile becomes one
brand-new striation inserted at index 0, and the drawn pile is cleared. -/
def InfectionDeck.ShuffleDrawn (d : InfectionDeck) : InfectionDeck :=
  { Striations := d.Drawn.toFinset :: d.Striations, Drawn := [] }

/-- Modelled from the spec: the bottom striation is the first non-empty
striation in the ordered sequence, falling through empty ones; the empty
set when every striation is empty. -/
def InfectionDeck.BottomStriation (d : InfectionDeck) : Striation :=
  match d.Striations.find? (fun s => decide (s ≠ ∅)) with
  | some s => s
  | none => ∅

/-- Modelled from the spec: the probability that a given name is drawn on
a non-shock turn, over the rationals: a name in the drawn pile has weight
infectionRate over one plus the drawn-pile size, a name in the bottom
striation has weight one over the bottom striation size, anything else
zero. -/
def InfectionDeck.ProbabilityOfDrawing (d : InfectionDeck) (cn : CityName)
    (infectionRate : Int) : ℚ :=
  if cn ∈ d.Drawn then
    (infectionRate : ℚ) / (1 + (d.Drawn.length : ℚ))
  else if cn ∈ d.BottomStriation then
    1 / (d.BottomStriation.card : ℚ)
  else 0

/-- Embeds the Go struct GameState from game_state.go. The static disease
metadata table is omitted: it is read-only after initialization and no
operation embedded here consults it. -/
structure GameState where
  Cities : Pandemic.Cities
  CityDeck : Pandemic.CityDeck
  InfectionDeck : Pandemic.InfectionDeck
  InfectionRate : Int
  Outbreaks : Int
  GameName : String
deriving DecidableEq

/-- Embeds the deck-building part of the Go function NewGame: the city
deck is the catalog cards plus EpidemicsPerGame epidemic cards, the
infection deck a single striation of every catalog name, infection rate
two and no outbreaks. The file reading and JSON decoding that produce the
catalog are peripheral and are replaced by taking the catalog directly. -/
def NewGame (cities : Pandemic.Cities) (gameName : String) : GameState :=
  { Cities := cities
    CityDeck := { Drawn := [], All := cities.CityCards 5 }
    InfectionDeck := NewInfectionDeck cities.CityNames
    InfectionRate := 2
    Outbreaks := 0
    GameName := gameName }

/-- Applies an update to the first city record with the given name,
leaving every other record in place: this is how a Go mutation through
the pointer returned by GetCity acts on the list. -/
def updateFirst : List City → CityName → (City → City) → List City
  | [], _, _ => []
  | c :: rest, cn, f =>
    if c.Name == cn then f c :: rest else c :: updateFirst rest cn f

/-- Go mutation through the GetCity pointer, lifted to the catalog
wrapper. -/
def Cities.updateCity (c : Pandemic.Cities) (cn : CityName) (f : City → City) :
    Pandemic.Cities :=
  ⟨updateFirst c.Cities cn f⟩

/-- Embeds the Go method GameState.Infect: draws the name from the
infection deck (returning its error on failure, with the deck possibly
already mutated, exactly as the Go pointer receivers leave it), then looks
the city up; a lookup failure is returned as an error, a quarantined city
has its quarantine cleared, and otherwise the city is infected, the Go
code discarding the overflow boolean. The result pairs the post-call
state with the optional error. -/
def GameState.Infect (gs : GameState) (cn : CityName) :
    GameState × Option String :=
  match gs.InfectionDeck.Draw cn with
  | (d, some e) => ({ gs with InfectionDeck := d }, some e)
  | (d, none) =>
    let gs1 := { gs with InfectionDeck := d }
    match gs1.Cities.GetCity cn with
    | none => (gs1, some ("No city named " ++ cn))
    | some city =>
      if city.Quarantined then
        ({ gs1 with Cities := gs1.Cities.updateCity cn City.RemoveQuarantine },
         none)
      else
        ({ gs1 with Cities :=
             gs1.Cities.updateCity cn (fun c => (c.Infect).1) }, none)

/-- Embeds the Go method GameState.Epidemic: pulls the name from the
infection deck drawn pile, draws an epidemic card from the city deck, and
then dereferences the GetCity result while discarding its error — the
outer none models the Go nil-pointer panic on an unknown name. A
quarantined city only has its quarantine cleared and the function returns
early; otherwise the city is set to infection level three and the
infection deck drawn pile is restacked as a fresh striation. -/
def GameState.Epidemic (gs : GameState) (cn : CityName) :
    Option (GameState × Option String) :=
  match gs.InfectionDeck.PullFromBottom cn with
  | (d, some e) => some ({ gs with InfectionDeck := d }, some e)
  | (d, none) =>
    let gs1 := { gs with InfectionDeck := d }
    match gs1.CityDeck.DrawEpidemic with
    | (cd, some e) => some ({ gs1 with CityDeck := cd }, some e)
    | (cd, none) =>
      let gs2 := { gs1 with CityDeck := cd }
      match gs2.Cities.GetCity cn with
      | none => none
      | some city =>
        if city.Quarantined then
          some ({ gs2 with Cities :=
                    gs2.Cities.updateCity cn City.RemoveQuarantine }, none)
        else
          some ({ gs2 with
                    Cities := gs2.Cities.updateCity cn City.Epidemic
                    InfectionDeck := gs2.InfectionDeck.ShuffleDrawn }, none)

/-- Embeds the Go method GameState.Quarantine: unknown names and cities
already quarantined are errors that leave the state unchanged; otherwise
the flag is set. -/
def GameState.Quarantine (gs : GameState) (cn : CityName) :
    GameState × Option String :=
  match gs.Cities.GetCity cn with
  | none => (gs, some ("No city named " ++ cn))
  | some city =>
    if city.Quarantined then
      (gs, some (cn ++ " is already quarantined"))
    else
      ({ gs with Cities := gs.Cities.updateCity cn City.Quarantine }, none)

/-- Embeds the Go method GameState.RemoveQuarantine: unknown names and
cities not quarantined are errors that leave the state unchanged;
otherwise the flag is cleared. -/
def GameState.RemoveQuarantine (gs : GameState) (cn : CityName) :
    GameState × Option String :=
  match gs.Cities.GetCity cn with
  | none => (gs, some ("No city named " ++ cn))
  | some city =>
    if city.Quarantined then
      ({ gs with Cities := gs.Cities.updateCity cn City.RemoveQuarantine },
       none)
    else
      (gs, some (cn ++ " is not quarantined"))

/-- Embeds the Go method GameState.ProbabilityOfCity over the rationals:
zero for unknown or quarantined names, and otherwise the epidemic-branch
draw weight combined with the plain-draw weight of the infection deck,
mixed by the city-deck epidemic probability. -/
def GameState.ProbabilityOfCity (gs : GameState) (cn : CityName) : ℚ :=
  match gs.Cities.GetCity cn with
  | none => 0
  | some city =>
    if city.Quarantined then 0
    else
      let pEpi := gs.CityDeck.probabilityOfEpidemic
      let bottom := gs.InfectionDeck.BottomStriation
      let pEpiDraw : ℚ :=
        if cn ∈ bottom then 1 / (bottom.card : ℚ)
        else if cn ∈ gs.InfectionDeck.Drawn then
          (gs.InfectionRate : ℚ) / (1 + (gs.InfectionDeck.Drawn.length : ℚ))
        else 0
      let pNoEpiDraw := gs.InfectionDeck.ProbabilityOfDrawing cn gs.InfectionRate
      pEpi * pEpiDraw + (1 - pEpi) * pNoEpiDraw

/-- Embeds the Go method GameState.CanOutbreak: false for unknown names,
false at infection count zero, false at draw probability zero, and
otherwise true exactly when the count is three or the name sits in the
bottom striation. -/
def GameState.CanOutbreak (gs : GameState) (cn : CityName) : Bool :=
  match gs.Cities.GetCity cn with
  | none => false
  | some city =>
    if city.NumInfections = 0 then false
    else if gs.ProbabilityOfCity cn = 0 then false
    else (city.NumInfections = 3 : Bool) || decide (cn ∈ gs.InfectionDeck.BottomStriation)

/-- One mutating call on a live session: the session operations of
game_state.go together with the deck-level draws that the rendering and
command layer invokes directly on the shared pointers. Epidemic steps to
any non-panicking outcome; the other operations always yield a state. -/
inductive Step : GameState → GameState → Prop
  | infect (gs : GameState) (cn : CityName) : Step gs ((gs.Infect cn).1)
  | epidemic (gs : GameState) (cn : CityName) (gs' : GameState)
      (e : Option String) (h : gs.Epidemic cn = some (gs', e)) : Step gs gs'
  | quarantine (gs : GameState) (cn : CityName) :
      Step gs ((gs.Quarantine cn).1)
  | removeQuarantine (gs : GameState) (cn : CityName) :
      Step gs ((gs.RemoveQuarantine cn).1)
  | infectionDraw (gs : GameState) (cn : CityName) :
      Step gs { gs with InfectionDeck := (gs.InfectionDeck.Draw cn).1 }
  | cityDraw (gs : GameState) (cn : CityName) :
      Step gs { gs with CityDeck := (gs.CityDeck.Draw cn).1 }
  | cityDrawEpidemic (gs : GameState) :
      Step gs { gs with CityDeck := (gs.CityDeck.DrawEpidemic).1 }

/-- States reachable from a given state by mutating calls. -/
inductive ReachableFrom (g0 : GameState) : GameState → Prop
  | refl : ReachableFrom g0 g0
  | step {gs gs' : GameState} (hr : ReachableFrom g0 gs) (hs : Step gs gs') :
      ReachableFrom g0 gs'

/-- A reachable game state: one produced from some freshly created game by
a sequence of mutating calls. -/
def Reachable (gs : GameState) : Prop :=
  ∃ cities gameName, ReachableFrom (NewGame cities gameName) gs

/-- Every striation of the infection deck is disjoint from its drawn
pile: the part of the partition invariant that the probability bounds
need. -/
def DeckDisjoint (d : InfectionDeck) : Prop :=
  ∀ s ∈ d.Striations, ∀ c ∈ s, c ∉ d.Drawn

/-- The state invariant backing the probability bounds: the configured
infection rate is two and the infection deck striations are disjoint from
its drawn pile. -/
def GSInv (gs : GameState) : Prop :=
  gs.InfectionRate = 2 ∧ DeckDisjoint gs.InfectionDeck

/-- Every city record of the session catalog has its infection count in
the range zero to three. -/
def LevelsInRange (gs : GameState) : Prop :=
  ∀ c ∈ gs.Cities.Cities, 0 ≤ c.NumInfections ∧ c.NumInfections ≤ 3

/-- Modelled from the spec: the phase rule for the shock probability
exactly as the specification words it, as a function of the four counts it
mentions — total entries, shock markers, cards drawn and shock markers
drawn — to be compared against the embedded code. -/
def shockProbabilityRule (total markers drawn markersDrawn : Nat) : ℚ :=
  let cardsPerShockPhase := total / markers
  let phase := drawn / cardsPerShockPhase
  if phase = markersDrawn then
    2 / ((cardsPerShockPhase : ℚ) - ((drawn % cardsPerShockPhase : Nat) : ℚ))
  else 0

/-! Concrete fixtures used by witnesses and counterexamples. -/

/-- A single epidemic card, as the Go literal builds it. -/
def epiCard : CityCard := ⟨emptyCity, true⟩

/-- A plain unquarantined, uninfected city named a. -/
def cityA : City :=
  { Name := "a", Disease := "", PanicLevel := 0, Neighbors := []
    NumInfections := 0, Quarantined := false }

/-- The same city with its quarantine flag set. -/
def cityAq : City := { cityA with Quarantined := true }

/-- A session whose only city is quarantined and sits in the infection
deck drawn pile, with one undrawn epidemic card in the city deck. -/
def gsShockQuar : GameState :=
  { Cities := ⟨[cityAq]⟩
    CityDeck := { Drawn := [], All := [epiCard] }
    InfectionDeck := { Striations := [], Drawn := ["a"] }
    InfectionRate := 2, Outbreaks := 0, GameName := "g" }

/-- The same session with the city not quarantined. -/
def gsShock : GameState := { gsShockQuar with Cities := ⟨[cityA]⟩ }

/-- The state gsShock reaches when its epidemic on a succeeds. -/
def gsShockAfter : GameState :=
  { Cities := ⟨[{ cityA with NumInfections := 3 }]⟩
    CityDeck := { Drawn := [epiCard], All := [epiCard] }
    InfectionDeck := { Striations := [{"a"}], Drawn := [] }
    InfectionRate := 2, Outbreaks := 0, GameName := "g" }

/-- A session whose infection deck holds a name that the city catalog
does not know: the empty catalog next to a striation containing x. -/
def gsGhost : GameState :=
  { Cities := ⟨[]⟩
    CityDeck := { Drawn := [], All := [] }
    InfectionDeck := { Striations := [{"x"}], Drawn := [] }
    InfectionRate := 2, Outbreaks := 0, GameName := "g" }

/-- A city deck shaped like the specification example: ninety city cards
plus six epidemic cards for ninety-six entries, with the first five city
cards already drawn and no epidemic drawn. -/
def deck96 : CityDeck :=
  { All := (List.range 90).map
       (fun i => ⟨{ emptyCity with Name := "c" ++ toString i }, false⟩) ++
       List.replicate 6 epiCard
    Drawn := (List.range 5).map
       (fun i => ⟨{ emptyCity with Name := "c" ++ toString i }, false⟩) }

/-- A session whose only city carries infection count minus one - a value
a loaded snapshot can contain, the Go field being a plain int - and sits
in the bottom striation. -/
def gsNegLevel : GameState :=
  { Cities := ⟨[{ cityA with NumInfections := -1 }]⟩
    CityDeck := { Drawn := [], All := [epiCard] }
    InfectionDeck := { Striations := [{"a"}], Drawn := [] }
    InfectionRate := 2, Outbreaks := 0, GameName := "g" }

/-- A one-city catalog whose city has infection count minus one, which is
at most three. -/
def citiesNeg : Pandemic.Cities := ⟨[{ cityA with NumInfections := -1 }]⟩

/-- The healthy one-city catalog. -/
def citiesOne : Pandemic.Cities := ⟨[cityA]⟩

/-- A non-epidemic card for the city named b. -/
def cardB : CityCard := ⟨{ cityA with Name := "b" }, false⟩

/-- A non-epidemic card for the city named a. -/
def cardA : CityCard := ⟨cityA, false⟩

/-- A two-card city deck with the card for a already drawn. -/
def deckTwo : CityDeck := { Drawn := [cardA], All := [cardA, cardB] }

/-! Helper lemmas. -/

theorem updateFirst_id (l : List City) (cn : CityName) :
    updateFirst l cn id = l := by
  induction l with
  | nil => rfl
  | cons c rest ih =>
    unfold updateFirst
    by_cases h : c.Name == cn <;> simp [h, ih]

theorem updateFirst_length (l : List City) (cn : CityName) (f : City → City) :
    (updateFirst l cn f).length = l.length := by
  induction l with
  | nil => rfl
  | cons c rest ih =>
    unfold updateFirst
    by_cases h : c.Name == cn <;> simp [h, ih]

theorem updateFirst_getD (l : List City) (cn : CityName) (f : City → City)
    (i : Nat) (h : (l.getD i emptyCity).Name ≠ cn) :
    (updateFirst l cn f).getD i emptyCity = l.getD i emptyCity := by
  induction l generalizing i with
  | nil => rfl
  | cons c rest ih =>
    unfold updateFirst
    by_cases hc : c.Name == cn
    · cases i with
      | zero =>
        exact absurd (by simpa using hc) (by simpa using h)
      | succ j => simp [hc]
    · cases i with
      | zero => simp [hc]
      | succ j =>
        simp only [hc, if_neg, Bool.false_eq_true, not_false_eq_true,
          List.getD_cons_succ]
        exact ih j (by simpa using h)

theorem mem_updateFirst {l : List City} {cn : CityName} {f : City → City}
    {c : City} (h : c ∈ updateFirst l cn f) : c ∈ l ∨ ∃ x ∈ l, c = f x := by
  induction l with
  | nil => simp [updateFirst] at h
  | cons d rest ih =>
    unfold updateFirst at h
    by_cases hd : d.Name == cn
    · simp only [hd, if_pos] at h
      rcases List.mem_cons.mp h with h | h
      · exact Or.inr ⟨d, List.mem_cons_self d rest, h⟩
      · exact Or.inl (List.mem_cons_of_mem d h)
    · simp only [hd, Bool.false_eq_true, if_neg, not_false_eq_true] at h
      rcases List.mem_cons.mp h with h | h
      · exact Or.inl (h ▸ List.mem_cons_self d rest)
      · rcases ih h with h | ⟨x, hx, hfx⟩
        · exact Or.inl (List.mem_cons_of_mem d h)
        · exact Or.inr ⟨x, List.mem_cons_of_mem d hx, hfx⟩

theorem toFinset_cons_erase {l : List CityName} {a : CityName} (h : a ∈ l) :
    (a :: l.erase a).toFinset = l.toFinset := by
  ext x
  by_cases hx : x = a
  · simp [hx, h]
  · simp [hx, List.mem_erase_of_ne hx]

/-! Claim theorems. -/

/-- C5: a quarantined city has draw probability exactly zero, whatever the
two decks hold. -/
theorem quarantined_probability_zero (gs : GameState) (cn : CityName)
    (city : City) (hc : gs.Cities.GetCity cn = some city)
    (hq : city.Quarantined = true) :
    gs.ProbabilityOfCity cn = 0 := by
  unfold GameState.ProbabilityOfCity
  rw [hc]
  simp [hq]

/-- Witness for C5 at a concrete quarantined one-city session. -/
theorem quarantined_probability_zero_witness :
    gsShockQuar.Cities.GetCity "a" = some cityAq ∧
      cityAq.Quarantined = true ∧
      gsShockQuar.ProbabilityOfCity "a" = 0 :=
  ⟨by decide, by decide,
    quarantined_probability_zero gsShockQuar "a" cityAq (by decide) (by decide)⟩

/-- C8: drawing from the city deck fails on a name already drawn, fails on
a name absent from the full card set, and otherwise appends the first
matching card of the full set to the drawn list. -/
theorem city_deck_draw_cases (c : CityDeck) (cn : CityName) :
    ((∃ card ∈ c.Drawn, card.City.Name = cn) →
        c.Draw cn = (c, some (cn ++ " has already been drawn from the city deck"))) ∧
    ((¬ ∃ card ∈ c.Drawn, card.City.Name = cn) →
      (¬ ∃ card ∈ c.All, card.City.Name = cn) →
        c.Draw cn = (c, some ("No city called " ++ cn ++ " in the city deck"))) ∧
    (∀ card : CityCard, (¬ ∃ card ∈ c.Drawn, card.City.Name = cn) →
      c.All.find? (fun card => card.City.Name == cn) = some card →
        c.Draw cn = ({ c with Drawn := c.Drawn ++ [card] }, none)) := by
  refine ⟨?_, ?_, ?_⟩
  · intro h
    unfold CityDeck.Draw
    rw [if_pos]
    simpa using h
  · intro h1 h2
    unfold CityDeck.Draw
    rw [if_neg (by simpa using h1)]
    rw [List.find?_eq_none.mpr (by simpa using h2)]
  · intro card h1 h2
    unfold CityDeck.Draw
    rw [if_neg (by simpa using h1), h2]

/-- Witness for C8: on a concrete two-card deck the duplicate branch,
the not-found branch and the success branch each act as stated. -/
theorem city_deck_draw_cases_witness :
    (deckTwo.Draw "a" =
      (deckTwo, some ("a" ++ " has already been drawn from the city deck"))) ∧
    (deckTwo.Draw "z" =
      (deckTwo, some ("No city called " ++ "z" ++ " in the city deck"))) ∧
    (deckTwo.Draw "b" = ({ deckTwo with Drawn := deckTwo.Drawn ++ [cardB] }, none)) :=
  ⟨(city_deck_draw_cases deckTwo "a").1 ⟨cardA, by decide, by decide⟩,
   (city_deck_draw_cases deckTwo "z").2.1 (by decide) (by decide),
   (city_deck_draw_cases deckTwo "b").2.2 cardB (by decide) (by decide)⟩

/-- C9: the divisions by the epidemic count are defined exactly when the
full card set holds at least one epidemic card, the checked forms agree
with the unguarded code under that precondition, and a new game always
establishes it by stacking five epidemic cards into the deck. -/
theorem epidemic_division_guard :
    (∀ c : CityDeck, c.cardsPerEpidemicChecked.isSome = true ↔ 0 < c.NumEpidemics) ∧
    (∀ c : CityDeck, c.probabilityOfEpidemicChecked.isSome = true ↔ 0 < c.NumEpidemics) ∧
    (∀ c : CityDeck, 0 < c.NumEpidemics →
       c.cardsPerEpidemicChecked = some c.cardsPerEpidemic ∧
       c.probabilityOfEpidemicChecked = some c.probabilityOfEpidemic) ∧
    (∀ (cs : Pandemic.Cities) (g : String),
       (NewGame cs g).CityDeck.NumEpidemics = 5) := by
  have hsome : ∀ c : CityDeck, 0 < c.NumEpidemics →
      c.cardsPerEpidemicChecked = some c.cardsPerEpidemic := by
    intro c hc
    unfold CityDeck.cardsPerEpidemicChecked CityDeck.cardsPerEpidemic
    rw [if_neg (Nat.pos_iff_ne_zero.mp hc)]
  refine ⟨?_, ?_, ?_, ?_⟩
  · intro c
    unfold CityDeck.cardsPerEpidemicChecked
    by_cases h : c.NumEpidemics = 0 <;> simp [h, Nat.pos_iff_ne_zero]
  · intro c
    unfold CityDeck.probabilityOfEpidemicChecked CityDeck.cardsPerEpidemicChecked
    by_cases h : c.NumEpidemics = 0 <;> simp [h, Nat.pos_iff_ne_zero]
  · intro c hc
    refine ⟨hsome c hc, ?_⟩
    unfold CityDeck.probabilityOfEpidemicChecked
    rw [hsome c hc]
    unfold CityDeck.probabilityOfEpidemic
    rfl
  · intro cs g
    unfold NewGame CityDeck.NumEpidemics Cities.CityCards
    rw [List.filter_append]
    simp

/-- Witness for C9 at the one-epidemic-card deck of the shock fixture. -/
theorem epidemic_division_guard_witness :
    0 < gsShock.CityDeck.NumEpidemics ∧
      gsShock.CityDeck.cardsPerEpidemicChecked =
        some gsShock.CityDeck.cardsPerEpidemic ∧
      gsShock.CityDeck.probabilityOfEpidemicChecked =
        some gsShock.CityDeck.probabilityOfEpidemic :=
  ⟨by decide, epidemic_division_guard.2.2.1 gsShock.CityDeck (by decide)⟩

theorem infect_shape (gs : GameState) (cn : CityName) :
    ∃ f : City → City,
      (f = id ∨ f = City.RemoveQuarantine ∨ f = (fun c => (c.Infect).1)) ∧
      (gs.Infect cn).1 =
        { gs with InfectionDeck := (gs.InfectionDeck.Draw cn).1
                  Cities := ⟨updateFirst gs.Cities.Cities cn f⟩ } := by
  unfold GameState.Infect
  rcases hdr : gs.InfectionDeck.Draw cn with ⟨d, oe⟩
  cases oe with
  | some e => exact ⟨id, Or.inl rfl, by simp [hdr, updateFirst_id]⟩
  | none =>
    cases hgc : Cities.GetCity gs.Cities cn with
    | none => exact ⟨id, Or.inl rfl, by simp [hdr, hgc, updateFirst_id]⟩
    | some city =>
      by_cases hq : city.Quarantined
      · exact ⟨City.RemoveQuarantine, Or.inr (Or.inl rfl),
          by simp [hdr, hgc, hq, Cities.updateCity]⟩
      · exact ⟨fun c => (c.Infect).1, Or.inr (Or.inr rfl),
          by simp [hdr, hgc, hq, Cities.updateCity]⟩

/-- C10: infecting never touches the city deck nor the scalar session
fields, keeps the catalog length, and can change no catalog entry other
than the first record carrying the drawn name, whether the call succeeds
or fails. -/
theorem infect_city_deck_frame (gs : GameState) (cn : CityName) :
    (gs.Infect cn).1.CityDeck = gs.CityDeck ∧
    (gs.Infect cn).1.InfectionRate = gs.InfectionRate ∧
    (gs.Infect cn).1.Outbreaks = gs.Outbreaks ∧
    (gs.Infect cn).1.GameName = gs.GameName ∧
    (gs.Infect cn).1.Cities.Cities.length = gs.Cities.Cities.length ∧
    ∀ i : Nat, (gs.Cities.Cities.getD i emptyCity).Name ≠ cn →
      (gs.Infect cn).1.Cities.Cities.getD i emptyCity =
        gs.Cities.Cities.getD i emptyCity := by
  rcases infect_shape gs cn with ⟨f, -, h⟩
  rw [h]
  exact ⟨rfl, rfl, rfl, rfl, updateFirst_length _ _ _,
    fun i hi => updateFirst_getD _ _ _ i hi⟩

/-- Witness for C10 on the concrete shock fixture, drawing a name its
catalog does not hold. -/
theorem infect_city_deck_frame_witness :
    (gsShock.Infect "b").1.CityDeck = gsShock.CityDeck ∧
      (gsShock.Cities.Cities.getD 0 emptyCity).Name ≠ "b" ∧
      (gsShock.Infect "b").1.Cities.Cities.getD 0 emptyCity =
        gsShock.Cities.Cities.getD 0 emptyCity :=
  ⟨(infect_city_deck_frame gsShock "b").1, by decide,
    (infect_city_deck_frame gsShock "b").2.2.2.2.2 0 (by decide)⟩

/-- C6 counterexample: a session whose single city carries infection count
minus one - loadable from a snapshot, the field being a plain Go int -
satisfies canOutbreak even though its infection level is not greater than
zero, refuting the claimed equivalence as stated. -/
theorem can_outbreak_negative_level :
    gsNegLevel.CanOutbreak "a" = true ∧
      (gsNegLevel.Cities.GetCity "a").map City.NumInfections = some (-1) ∧
      ¬(0 < (-1 : Int)) := by
  have hp : gsNegLevel.ProbabilityOfCity "a" = 1 := by
    norm_num [GameState.ProbabilityOfCity, Cities.GetCity,
      InfectionDeck.BottomStriation, InfectionDeck.ProbabilityOfDrawing,
      CityDeck.probabilityOfEpidemic, CityDeck.cardsPerEpidemic,
      CityDeck.Total, CityDeck.NumEpidemics, CityDeck.EpidemicsDrawn,
      gsNegLevel, cityA, epiCard, emptyCity, List.find?]
  refine ⟨?_, by decide, by norm_num⟩
  unfold GameState.CanOutbreak
  rw [hp]
  norm_num [Cities.GetCity, List.find?, gsNegLevel, cityA,
    InfectionDeck.BottomStriation]

/-- C6 amended: canOutbreak holds exactly when the looked-up city has a
nonzero infection count, the draw probability is nonzero, and the count is
three or the name sits in the bottom striation; a city at count zero in
particular always yields false. -/
theorem can_outbreak_iff (gs : GameState) (cn : CityName) :
    gs.CanOutbreak cn = true ↔
      ∃ city, gs.Cities.GetCity cn = some city ∧ city.NumInfections ≠ 0 ∧
        gs.ProbabilityOfCity cn ≠ 0 ∧
        (city.NumInfections = 3 ∨ cn ∈ gs.InfectionDeck.BottomStriation) := by
  unfold GameState.CanOutbreak
  cases hgc : gs.Cities.GetCity cn with
  | none => simp [hgc]
  | some city =>
    by_cases h0 : city.NumInfections = 0
    · simp [hgc, h0]
    · by_cases hprob : gs.ProbabilityOfCity cn = 0
      · simp [hgc, h0, hprob]
      · simp [hgc, h0, hprob]

/-- C4: the embedded epidemic probability coincides with the phase rule of
the specification on every deck with at least one shock marker, and the
specification's ninety-six-card example evaluates to two elevenths. -/
theorem shock_probability_formula (c : CityDeck) (_h : 1 ≤ c.NumEpidemics) :
    c.probabilityOfEpidemic =
      shockProbabilityRule c.Total c.NumEpidemics c.Drawn.length c.EpidemicsDrawn ∧
    deck96.probabilityOfEpidemic = 2 / 11 := by
  constructor
  · rfl
  · have h1 : deck96.cardsPerEpidemic = 16 := by decide
    have h2 : deck96.Drawn.length = 5 := by decide
    have h3 : deck96.EpidemicsDrawn = 0 := by decide
    rw [CityDeck.probabilityOfEpidemic, h1, h2, h3]
    norm_num

/-- Witness for C4 at the ninety-six-card deck itself. -/
theorem shock_probability_formula_witness :
    1 ≤ deck96.NumEpidemics ∧
      deck96.probabilityOfEpidemic =
        shockProbabilityRule deck96.Total deck96.NumEpidemics
          deck96.Drawn.length deck96.EpidemicsDrawn :=
  ⟨by decide, (shock_probability_formula deck96 (by decide)).1⟩

/-- C1 counterexample: on a session whose drawn-pile city is quarantined,
the epidemic call succeeds yet skips the restack - the drawn pile still
holds the city and no new striation exists - because the Go code returns
before calling the shuffle in the quarantined branch. -/
theorem epidemic_quarantine_skips_restack :
    "a" ∈ gsShockQuar.InfectionDeck.Drawn ∧
      (gsShockQuar.Epidemic "a").map Prod.snd = some none ∧
      (gsShockQuar.Epidemic "a").map (fun p => p.1.InfectionDeck.Drawn) =
        some ["a"] ∧
      (gsShockQuar.Epidemic "a").map (fun p => p.1.InfectionDeck.Striations) =
        some [] := by
  decide

/-- C1 amended: when an epidemic call succeeds on a city that is not
quarantined, the entire former drawn pile, the pulled name included,
becomes the single new striation at index zero and the drawn pile is
emptied. -/
theorem epidemic_restack (gs : GameState) (cn : CityName) (gs' : GameState)
    (city : City) (h : gs.Epidemic cn = some (gs', none))
    (hc : gs.Cities.GetCity cn = some city) (hq : city.Quarantined = false) :
    cn ∈ gs.InfectionDeck.Drawn ∧
      gs'.InfectionDeck.Striations =
        gs.InfectionDeck.Drawn.toFinset :: gs.InfectionDeck.Striations ∧
      gs'.InfectionDeck.Drawn = [] := by
  by_cases hmem : cn ∈ gs.InfectionDeck.Drawn
  · refine ⟨hmem, ?_⟩
    unfold GameState.Epidemic InfectionDeck.PullFromBottom at h
    rw [if_pos hmem] at h
    simp only at h
    rcases hde : gs.CityDeck.DrawEpidemic with ⟨cd, oe⟩
    rw [hde] at h
    cases oe with
    | some e => simp at h
    | none =>
      simp only [hc] at h
      rw [if_neg (by simp [hq])] at h
      simp only [InfectionDeck.ShuffleDrawn, Option.some.injEq,
        Prod.mk.injEq] at h
      rcases h with ⟨h, -⟩
      rw [← h]
      simp [toFinset_cons_erase hmem]
  · exfalso
    unfold GameState.Epidemic InfectionDeck.PullFromBottom at h
    rw [if_neg hmem] at h
    simp at h

/-- Witness for C1 amended on the concrete unquarantined shock fixture. -/
theorem epidemic_restack_witness :
    "a" ∈ gsShock.InfectionDeck.Drawn ∧
      gsShockAfter.InfectionDeck.Striations =
        gsShock.InfectionDeck.Drawn.toFinset ::
          gsShock.InfectionDeck.Striations ∧
      gsShockAfter.InfectionDeck.Drawn = [] :=
  epidemic_restack gsShock "a" gsShockAfter cityA (by decide) (by decide)
    (by decide)

theorem quarantine_error_frame (gs : GameState) (cn : CityName)
    (h : ((gs.Quarantine cn).2).isSome = true) : (gs.Quarantine cn).1 = gs := by
  unfold GameState.Quarantine at h ⊢
  cases hgc : gs.Cities.GetCity cn with
  | none => simp [hgc]
  | some city =>
    by_cases hq : city.Quarantined
    · simp [hq]
    · rw [hgc] at h
      simp [hq] at h

theorem remove_quarantine_error_frame (gs : GameState) (cn : CityName)
    (h : ((gs.RemoveQuarantine cn).2).isSome = true) :
    (gs.RemoveQuarantine cn).1 = gs := by
  unfold GameState.RemoveQuarantine at h ⊢
  cases hgc : gs.Cities.GetCity cn with
  | none => simp [hgc]
  | some city =>
    by_cases hq : city.Quarantined
    · rw [hgc] at h
      simp [hq] at h
    · simp [hq]

theorem city_draw_error_frame (c : CityDeck) (cn : CityName)
    (h : ((c.Draw cn).2).isSome = true) : (c.Draw cn).1 = c := by
  unfold CityDeck.Draw at h ⊢
  by_cases hd : c.Drawn.any (fun card => card.City.Name == cn)
  · simp [hd]
  · rw [if_neg hd] at h ⊢
    cases hf : c.All.find? (fun card => card.City.Name == cn) with
    | none => simp [hf]
    | some card => rw [hf] at h; simp at h

theorem draw_epidemic_error_frame (c : CityDeck)
    (h : ((c.DrawEpidemic).2).isSome = true) : (c.DrawEpidemic).1 = c := by
  unfold CityDeck.DrawEpidemic at h ⊢
  by_cases hd : c.NumEpidemics ≤ c.EpidemicsDrawn
  · simp [hd]
  · simp [hd] at h

theorem infection_draw_error_frame (d : InfectionDeck) (cn : CityName)
    (h : ((d.Draw cn).2).isSome = true) : (d.Draw cn).1 = d := by
  unfold InfectionDeck.Draw at h ⊢
  by_cases h1 : cn ∈ d.Drawn
  · simp [h1]
  · rw [if_neg h1] at h ⊢
    by_cases h2 : d.Striations.any (fun s => decide (cn ∈ s))
    · simp [h2] at h
    · simp [h2]

/-- C3 counterexample: on a session whose infection deck knows a name the
city catalog does not, the infect operation returns an error and yet has
already mutated the infection deck, because the deck draw precedes the
registry lookup. -/
theorem infect_mutates_before_lookup :
    ((gsGhost.Infect "x").2).isSome = true ∧
      (gsGhost.Infect "x").1.InfectionDeck ≠ gsGhost.InfectionDeck := by
  decide

/-- C3 amended: quarantine, remove-quarantine, both city deck draws and
the infection deck draw leave their state unchanged whenever they return
an error, and a failing epidemic leaves the catalog, the city deck and the
striations unchanged and preserves the membership of the drawn pile -
entirely unchanged when the failure is the bottom pull itself; but an
infect call that fails its registry lookup has already mutated the
infection deck, and only its failure at the infection deck draw leaves the
session untouched. -/
theorem error_frame_by_operation :
    (∀ (gs : GameState) (cn : CityName),
        ((gs.Quarantine cn).2).isSome = true → (gs.Quarantine cn).1 = gs) ∧
    (∀ (gs : GameState) (cn : CityName),
        ((gs.RemoveQuarantine cn).2).isSome = true →
          (gs.RemoveQuarantine cn).1 = gs) ∧
    (∀ (c : CityDeck) (cn : CityName),
        ((c.Draw cn).2).isSome = true → (c.Draw cn).1 = c) ∧
    (∀ c : CityDeck,
        ((c.DrawEpidemic).2).isSome = true → (c.DrawEpidemic).1 = c) ∧
    (∀ (d : InfectionDeck) (cn : CityName),
        ((d.Draw cn).2).isSome = true → (d.Draw cn).1 = d) ∧
    (∀ (gs : GameState) (cn : CityName),
        ((gs.InfectionDeck.Draw cn).2).isSome = true → (gs.Infect cn).1 = gs) ∧
    (∀ (gs : GameState) (cn : CityName) (gs' : GameState) (e : String),
        gs.Epidemic cn = some (gs', some e) →
          gs'.Cities = gs.Cities ∧ gs'.CityDeck = gs.CityDeck ∧
          gs'.InfectionDeck.Striations = gs.InfectionDeck.Striations ∧
          gs'.InfectionDeck.Drawn.toFinset = gs.InfectionDeck.Drawn.toFinset ∧
          (cn ∉ gs.InfectionDeck.Drawn → gs' = gs)) := by
  refine ⟨quarantine_error_frame, remove_quarantine_error_frame,
    city_draw_error_frame, draw_epidemic_error_frame,
    infection_draw_error_frame, ?_, ?_⟩
  · intro gs cn h
    unfold GameState.Infect
    rcases hdr : gs.InfectionDeck.Draw cn with ⟨d, oe⟩
    have hd : d = gs.InfectionDeck := by
      have h1 := infection_draw_error_frame gs.InfectionDeck cn h
      rw [hdr] at h1
      exact h1
    rw [hdr] at h
    cases oe with
    | some e => simp [hd]
    | none => simp at h
  · intro gs cn gs' e h
    unfold GameState.Epidemic InfectionDeck.PullFromBottom at h
    by_cases hmem : cn ∈ gs.InfectionDeck.Drawn
    · rw [if_pos hmem] at h
      simp only at h
      rcases hde : gs.CityDeck.DrawEpidemic with ⟨cd, oe⟩
      have hcd : oe.isSome = true → cd = gs.CityDeck := by
        intro hs
        have h1 := draw_epidemic_error_frame gs.CityDeck (by rw [hde]; exact hs)
        rw [hde] at h1
        exact h1
      rw [hde] at h
      cases oe with
      | some e2 =>
        simp only [Option.some.injEq, Prod.mk.injEq] at h
        rcases h with ⟨h, -⟩
        rw [← h]
        refine ⟨rfl, hcd rfl, rfl, toFinset_cons_erase hmem,
          fun hn => absurd hmem hn⟩
      | none =>
        cases hgc : Cities.GetCity gs.Cities cn with
        | none => rw [hgc] at h; simp at h
        | some city =>
          rw [hgc] at h
          by_cases hq : city.Quarantined <;> simp [hq] at h
    · rw [if_neg hmem] at h
      simp only [Option.some.injEq, Prod.mk.injEq] at h
      rcases h with ⟨h, -⟩
      rw [← h]
      exact ⟨rfl, rfl, rfl, rfl, fun _ => rfl⟩

/-- Witness for C3 amended: a failing quarantine and a duplicate city-deck
draw on concrete states, each leaving the state unchanged. -/
theorem error_frame_by_operation_witness :
    ((gsShock.Quarantine "z").2).isSome = true ∧
      (gsShock.Quarantine "z").1 = gsShock ∧
      ((deckTwo.Draw "a").2).isSome = true ∧
      (deckTwo.Draw "a").1 = deckTwo :=
  ⟨by decide, error_frame_by_operation.1 gsShock "z" (by decide), by decide,
    error_frame_by_operation.2.2.1 deckTwo "a" (by decide)⟩

theorem epidemic_shape (gs : GameState) (cn : CityName) (gs' : GameState)
    (e : Option String) (h : gs.Epidemic cn = some (gs', e)) :
    ∃ (f : City → City) (D : InfectionDeck) (CD : Pandemic.CityDeck),
      (f = id ∨ f = City.RemoveQuarantine ∨ f = City.Epidemic) ∧
      (D = gs.InfectionDeck ∨ D = (gs.InfectionDeck.PullFromBottom cn).1 ∨
        D = ((gs.InfectionDeck.PullFromBottom cn).1).ShuffleDrawn) ∧
      gs' = { gs with InfectionDeck := D, CityDeck := CD
                      Cities := ⟨updateFirst gs.Cities.Cities cn f⟩ } := by
  unfold GameState.Epidemic at h
  by_cases hmem : cn ∈ gs.InfectionDeck.Drawn
  · have hpull : gs.InfectionDeck.PullFromBottom cn =
        ({ gs.InfectionDeck with
             Drawn := cn :: gs.InfectionDeck.Drawn.erase cn }, none) := by
      unfold InfectionDeck.PullFromBottom
      rw [if_pos hmem]
    rw [hpull] at h
    simp only at h
    rcases hde : gs.CityDeck.DrawEpidemic with ⟨cd, oe⟩
    rw [hde] at h
    cases oe with
    | some e2 =>
      simp only [Option.some.injEq, Prod.mk.injEq] at h
      refine ⟨id, (gs.InfectionDeck.PullFromBottom cn).1, cd,
        Or.inl rfl, Or.inr (Or.inl rfl), ?_⟩
      rw [← h.1, hpull]
      simp [updateFirst_id]
    | none =>
      cases hgc : Cities.GetCity gs.Cities cn with
      | none => rw [hgc] at h; simp at h
      | some city =>
        rw [hgc] at h
        simp only at h
        by_cases hq : city.Quarantined
        · rw [if_pos hq] at h
          simp only [Option.some.injEq, Prod.mk.injEq] at h
          refine ⟨City.RemoveQuarantine, (gs.InfectionDeck.PullFromBottom cn).1,
            cd, Or.inr (Or.inl rfl), Or.inr (Or.inl rfl), ?_⟩
          rw [← h.1, hpull]
          simp [Cities.updateCity]
        · rw [if_neg hq] at h
          simp only [Option.some.injEq, Prod.mk.injEq] at h
          refine ⟨City.Epidemic, ((gs.InfectionDeck.PullFromBottom cn).1).ShuffleDrawn,
            cd, Or.inr (Or.inr rfl), Or.inr (Or.inr rfl), ?_⟩
          rw [← h.1, hpull]
          simp [Cities.updateCity]
  · have hpull : gs.InfectionDeck.PullFromBottom cn =
        (gs.InfectionDeck,
          some (cn ++ " is not in the drawn pile of the infection deck")) := by
      unfold InfectionDeck.PullFromBottom
      rw [if_neg hmem]
    rw [hpull] at h
    simp only [Option.some.injEq, Prod.mk.injEq] at h
    refine ⟨id, gs.InfectionDeck, gs.CityDeck, Or.inl rfl, Or.inl rfl, ?_⟩
    rw [← h.1]
    simp [updateFirst_id]

theorem quarantine_shape (gs : GameState) (cn : CityName) :
    ∃ f : City → City, (f = id ∨ f = City.Quarantine) ∧
      (gs.Quarantine cn).1 =
        { gs with Cities := ⟨updateFirst gs.Cities.Cities cn f⟩ } := by
  unfold GameState.Quarantine
  cases hgc : Cities.GetCity gs.Cities cn with
  | none => exact ⟨id, Or.inl rfl, by simp [updateFirst_id]⟩
  | some city =>
    by_cases hq : city.Quarantined
    · exact ⟨id, Or.inl rfl, by simp [hq, updateFirst_id]⟩
    · exact ⟨City.Quarantine, Or.inr rfl, by simp [hq, Cities.updateCity]⟩

theorem remove_quarantine_shape (gs : GameState) (cn : CityName) :
    ∃ f : City → City, (f = id ∨ f = City.RemoveQuarantine) ∧
      (gs.RemoveQuarantine cn).1 =
        { gs with Cities := ⟨updateFirst gs.Cities.Cities cn f⟩ } := by
  unfold GameState.RemoveQuarantine
  cases hgc : Cities.GetCity gs.Cities cn with
  | none => exact ⟨id, Or.inl rfl, by simp [updateFirst_id]⟩
  | some city =>
    by_cases hq : city.Quarantined
    · exact ⟨City.RemoveQuarantine, Or.inr rfl, by simp [hq, Cities.updateCity]⟩
    · exact ⟨id, Or.inl rfl, by simp [hq, updateFirst_id]⟩

/-- An infection count in the range zero to three, as a predicate on one
city record. -/
def levelOK (c : City) : Prop := 0 ≤ c.NumInfections ∧ c.NumInfections ≤ 3

theorem levelOK_updateFirst {l : List City} {cn : CityName} {f : City → City}
    (hf : ∀ c, levelOK c → levelOK (f c)) (hl : ∀ c ∈ l, levelOK c) :
    ∀ c ∈ updateFirst l cn f, levelOK c := by
  intro c hc
  rcases mem_updateFirst hc with h | ⟨x, hx, rfl⟩
  · exact hl c h
  · exact hf x (hl x hx)

theorem levelOK_infect_step (c : City) (h : levelOK c) :
    levelOK ((c.Infect).1) := by
  unfold City.Infect
  by_cases h3 : c.NumInfections = 3
  · rw [if_pos h3]
    exact h
  · rw [if_neg h3]
    rcases h with ⟨h0, h1⟩
    refine ⟨?_, ?_⟩
    · show (0 : Int) ≤ c.NumInfections + 1
      omega
    · show c.NumInfections + 1 ≤ 3
      omega

theorem levels_step {gs gs' : GameState} (hs : Step gs gs')
    (hl : ∀ c ∈ gs.Cities.Cities, levelOK c) :
    ∀ c ∈ gs'.Cities.Cities, levelOK c := by
  cases hs with
  | infect cn =>
    rcases infect_shape gs cn with ⟨f, hf, h⟩
    rw [h]
    refine levelOK_updateFirst ?_ hl
    rcases hf with rfl | rfl | rfl
    · exact fun c hc => hc
    · exact fun c hc => hc
    · exact levelOK_infect_step
  | epidemic cn gs2 e h =>
    rcases epidemic_shape gs cn _ e h with ⟨f, D, CD, hf, -, hshape⟩
    rw [hshape]
    refine levelOK_updateFirst ?_ hl
    rcases hf with rfl | rfl | rfl
    · exact fun c hc => hc
    · exact fun c hc => hc
    · exact fun c _ => ⟨by norm_num [City.Epidemic], by norm_num [City.Epidemic]⟩
  | quarantine cn =>
    rcases quarantine_shape gs cn with ⟨f, hf, h⟩
    rw [h]
    refine levelOK_updateFirst ?_ hl
    rcases hf with rfl | rfl
    · exact fun c hc => hc
    · exact fun c hc => hc
  | removeQuarantine cn =>
    rcases remove_quarantine_shape gs cn with ⟨f, hf, h⟩
    rw [h]
    refine levelOK_updateFirst ?_ hl
    rcases hf with rfl | rfl
    · exact fun c hc => hc
    · exact fun c hc => hc
  | infectionDraw cn => exact hl
  | cityDraw cn => exact hl
  | cityDrawEpidemic => exact hl

/-- C7 counterexample: a catalog whose single city has infection count
minus one satisfies the claimed premise - every level is at most three -
yet the freshly created session, which is reachable, already holds a level
outside the range zero to three. -/
theorem initial_negative_level :
    ((citiesNeg.Cities.getD 0 emptyCity).NumInfections ≤ 3) ∧
      Reachable (NewGame citiesNeg "g") ∧
      ¬(0 ≤ ((NewGame citiesNeg "g").Cities.Cities.getD 0
              emptyCity).NumInfections) :=
  ⟨by decide, ⟨citiesNeg, "g", ReachableFrom.refl⟩, by decide⟩

/-- C7 amended: starting from a catalog whose infection counts all lie in
the range zero to three, every session operation keeps every count in that
range, and a city already at count three signals the overflow instead of
incrementing. -/
theorem infection_levels_in_range (cs : Pandemic.Cities) (nm : String)
    (gs : GameState)
    (h0 : ∀ c ∈ cs.Cities, 0 ≤ c.NumInfections ∧ c.NumInfections ≤ 3)
    (hr : ReachableFrom (NewGame cs nm) gs) :
    (∀ c ∈ gs.Cities.Cities, 0 ≤ c.NumInfections ∧ c.NumInfections ≤ 3) ∧
      (∀ c : City, c.NumInfections = 3 → c.Infect = (c, true)) := by
  refine ⟨?_, fun c hc => by simp [City.Infect, hc]⟩
  induction hr with
  | refl => exact h0
  | step hr hs ih => exact levels_step hs ih

/-- Witness for C7 amended at the freshly created healthy one-city game. -/
theorem infection_levels_in_range_witness :
    (∀ c ∈ citiesOne.Cities, 0 ≤ c.NumInfections ∧ c.NumInfections ≤ 3) ∧
      (∀ c ∈ (NewGame citiesOne "g").Cities.Cities,
         0 ≤ c.NumInfections ∧ c.NumInfections ≤ 3) :=
  ⟨by decide,
    (infection_levels_in_range citiesOne "g" (NewGame citiesOne "g")
        (by decide) ReachableFrom.refl).1⟩

theorem disjoint_infection_draw (d : InfectionDeck) (cn : CityName)
    (h : DeckDisjoint d) : DeckDisjoint ((d.Draw cn).1) := by
  unfold InfectionDeck.Draw
  by_cases h1 : cn ∈ d.Drawn
  · rw [if_pos h1]
    exact h
  · by_cases h2 : d.Striations.any (fun s => decide (cn ∈ s))
    · rw [if_neg h1, if_pos h2]
      intro s hs c hc hcd
      rcases List.mem_map.mp hs with ⟨s0, hs0, rfl⟩
      have hcs0 : c ∈ s0 := Finset.mem_of_mem_erase hc
      have hne : c ≠ cn := Finset.ne_of_mem_erase hc
      rcases List.mem_cons.mp hcd with rfl | hcd
      · exact hne rfl
      · exact h s0 hs0 c hcs0 hcd
    · rw [if_neg h1, if_neg h2]
      exact h

theorem disjoint_pull (d : InfectionDeck) (cn : CityName)
    (h : DeckDisjoint d) : DeckDisjoint ((d.PullFromBottom cn).1) := by
  unfold InfectionDeck.PullFromBottom
  by_cases h1 : cn ∈ d.Drawn
  · rw [if_pos h1]
    intro s hs c hc hcd
    rcases List.mem_cons.mp hcd with rfl | hcd
    · exact h s hs c hc h1
    · exact h s hs c hc (List.mem_of_mem_erase hcd)
  · rw [if_neg h1]
    exact h

theorem disjoint_shuffle (d : InfectionDeck) :
    DeckDisjoint (d.ShuffleDrawn) := by
  intro s hs c hc hcd
  exact absurd hcd (List.not_mem_nil c)

theorem inv_step {gs gs' : GameState} (hs : Step gs gs') (hinv : GSInv gs) :
    GSInv gs' := by
  rcases hinv with ⟨hrate, hdisj⟩
  cases hs with
  | infect cn =>
    rcases infect_shape gs cn with ⟨f, -, h⟩
    rw [h]
    exact ⟨hrate, disjoint_infection_draw _ _ hdisj⟩
  | epidemic cn gs2 e h =>
    rcases epidemic_shape gs cn _ e h with ⟨f, D, CD, -, hD, hshape⟩
    rw [hshape]
    refine ⟨hrate, ?_⟩
    rcases hD with rfl | rfl | rfl
    · exact hdisj
    · exact disjoint_pull _ _ hdisj
    · exact disjoint_shuffle _
  | quarantine cn =>
    rcases quarantine_shape gs cn with ⟨f, -, h⟩
    rw [h]
    exact ⟨hrate, hdisj⟩
  | removeQuarantine cn =>
    rcases remove_quarantine_shape gs cn with ⟨f, -, h⟩
    rw [h]
    exact ⟨hrate, hdisj⟩
  | infectionDraw cn => exact ⟨hrate, disjoint_infection_draw _ _ hdisj⟩
  | cityDraw cn => exact ⟨hrate, hdisj⟩
  | cityDrawEpidemic => exact ⟨hrate, hdisj⟩

theorem reachable_inv {gs : GameState} (h : Reachable gs) : GSInv gs := by
  rcases h with ⟨cs, nm, hr⟩
  induction hr with
  | refl =>
    refine ⟨rfl, ?_⟩
    intro s hs c hc hcd
    simp [NewGame, NewInfectionDeck] at hcd
  | step hr hs ih => exact inv_step hs ih

theorem bottom_mem_or_empty (d : InfectionDeck) :
    d.BottomStriation ∈ d.Striations ∨ d.BottomStriation = ∅ := by
  unfold InfectionDeck.BottomStriation
  cases hf : d.Striations.find? (fun s => decide (s ≠ ∅)) with
  | none => exact Or.inr rfl
  | some s => exact Or.inl (List.mem_of_find?_eq_some hf)

theorem probability_bounds_of_inv (gs : GameState) (cn : CityName)
    (hinv : GSInv gs) :
    0 ≤ gs.ProbabilityOfCity cn ∧ gs.ProbabilityOfCity cn ≤ 1 := by
  rcases hinv with ⟨hrate, hdisj⟩
  cases hgc : gs.Cities.GetCity cn with
  | none =>
    simp only [GameState.ProbabilityOfCity, hgc]
    norm_num
  | some city =>
    simp only [GameState.ProbabilityOfCity, hgc]
    by_cases hq : city.Quarantined
    · rw [if_pos hq]
      norm_num
    · rw [if_neg hq]
      by_cases hb : cn ∈ gs.InfectionDeck.BottomStriation
      · have hmemS : gs.InfectionDeck.BottomStriation ∈
            gs.InfectionDeck.Striations := by
          rcases bottom_mem_or_empty gs.InfectionDeck with h | h
          · exact h
          · rw [h] at hb
            exact absurd hb (Finset.not_mem_empty cn)
        have hnd : cn ∉ gs.InfectionDeck.Drawn := hdisj _ hmemS cn hb
        have hcard1 : 1 ≤ gs.InfectionDeck.BottomStriation.card :=
          Finset.card_pos.mpr ⟨cn, hb⟩
        have hcard : 0 < (gs.InfectionDeck.BottomStriation.card : ℚ) := by
          exact_mod_cast Nat.lt_of_lt_of_le Nat.zero_lt_one hcard1
        rw [if_pos hb]
        unfold InfectionDeck.ProbabilityOfDrawing
        rw [if_neg hnd, if_pos hb]
        have hx : gs.CityDeck.probabilityOfEpidemic *
              (1 / (gs.InfectionDeck.BottomStriation.card : ℚ)) +
            (1 - gs.CityDeck.probabilityOfEpidemic) *
              (1 / (gs.InfectionDeck.BottomStriation.card : ℚ)) =
            1 / (gs.InfectionDeck.BottomStriation.card : ℚ) := by ring
        rw [hx]
        constructor
        · positivity
        · rw [div_le_one hcard]
          exact_mod_cast hcard1
      · by_cases hd : cn ∈ gs.InfectionDeck.Drawn
        · have hlen1 : 1 ≤ gs.InfectionDeck.Drawn.length :=
            List.length_pos.mpr (List.ne_nil_of_mem hd)
          have hlen : (0 : ℚ) < 1 + (gs.InfectionDeck.Drawn.length : ℚ) := by
            positivity
          rw [if_neg hb, if_pos hd]
          unfold InfectionDeck.ProbabilityOfDrawing
          rw [if_pos hd, hrate]
          have hx : gs.CityDeck.probabilityOfEpidemic *
                ((2 : Int) / (1 + (gs.InfectionDeck.Drawn.length : ℚ))) +
              (1 - gs.CityDeck.probabilityOfEpidemic) *
                ((2 : Int) / (1 + (gs.InfectionDeck.Drawn.length : ℚ))) =
              (2 : ℚ) / (1 + (gs.InfectionDeck.Drawn.length : ℚ)) := by
            push_cast
            ring
          rw [hx]
          constructor
          · positivity
          · rw [div_le_one hlen]
            have : (1 : ℚ) ≤ (gs.InfectionDeck.Drawn.length : ℚ) := by
              exact_mod_cast hlen1
            linarith
        · rw [if_neg hb, if_neg hd]
          unfold InfectionDeck.ProbabilityOfDrawing
          rw [if_neg hd, if_neg hb]
          norm_num

/-- C2: on every reachable session state the draw probability of every
name lies between zero and one inclusive. -/
theorem probability_of_city_bounds (gs : GameState) (cn : CityName)
    (h : Reachable gs) :
    0 ≤ gs.ProbabilityOfCity cn ∧ gs.ProbabilityOfCity cn ≤ 1 :=
  probability_bounds_of_inv gs cn (reachable_inv h)

/-- Witness for C2 at the freshly created one-city game. -/
theorem probability_of_city_bounds_witness :
    0 ≤ (NewGame citiesOne "g").ProbabilityOfCity "a" ∧
      (NewGame citiesOne "g").ProbabilityOfCity "a" ≤ 1 :=
  probability_of_city_bounds (NewGame citiesOne "g") "a"
    ⟨citiesOne, "g", ReachableFrom.refl⟩

end Pandemic
